import Mathlib

/-!
Shallow embedding of the swirl_lm scalar source-function specializations
(`swirl_lm/equations/source_function/total_energy.py`,
`swirl_lm/equations/source_function/potential_temperature.py`) and of the
outflow boundary condition (`boundary_condition/outflow.py`).

3D fields (`tf.Tensor` per z-slice lists) are embedded as shape metadata
together with a total value function `ℤ → ℤ → ℤ → ℚ`; `tf.nest.map_structure`
becomes pointwise application whose shape metadata is inherited from the first
argument, mirroring the structure-from-first-argument convention.  External
collaborators (water thermodynamics, cloud radiation, microphysics, subsidence
utility) are embedded as bundles of total functions supplied as parameters:
the claims under study do not depend on their internals.
-/

namespace SwirlLM

/-- A 3D flow field: per-axis extents and a total value function.  The value
function embeds one `tf.Tensor`-list with axis 0 = x (within-slice dim 0),
axis 1 = y (within-slice dim 1), axis 2 = z (list index). -/
@[ext]
structure Fld where
  nx : ℕ
  ny : ℕ
  nz : ℕ
  val : ℤ → ℤ → ℤ → ℚ

/-- `tf.nest.map_structure` over one field. -/
def Fld.map1 (f : ℚ → ℚ) (a : Fld) : Fld :=
  ⟨a.nx, a.ny, a.nz, fun i j k => f (a.val i j k)⟩

/-- `tf.nest.map_structure` over two fields (shape taken from the first). -/
def Fld.zipW (f : ℚ → ℚ → ℚ) (a b : Fld) : Fld :=
  ⟨a.nx, a.ny, a.nz, fun i j k => f (a.val i j k) (b.val i j k)⟩

/-- `tf.nest.map_structure` over three fields. -/
def Fld.zip3W (f : ℚ → ℚ → ℚ → ℚ) (a b c : Fld) : Fld :=
  ⟨a.nx, a.ny, a.nz, fun i j k => f (a.val i j k) (b.val i j k) (c.val i j k)⟩

/-- `tf.nest.map_structure` over four fields. -/
def Fld.zip4W (f : ℚ → ℚ → ℚ → ℚ → ℚ) (a b c d : Fld) : Fld :=
  ⟨a.nx, a.ny, a.nz,
    fun i j k => f (a.val i j k) (b.val i j k) (c.val i j k) (d.val i j k)⟩

/-- `tf.nest.map_structure` over six fields, as used for `u_dot_tau`. -/
def Fld.zip6W (f : ℚ → ℚ → ℚ → ℚ → ℚ → ℚ → ℚ) (a b c d e g : Fld) : Fld :=
  ⟨a.nx, a.ny, a.nz,
    fun i j k => f (a.val i j k) (b.val i j k) (c.val i j k) (d.val i j k)
      (e.val i j k) (g.val i j k)⟩

/-- `tf.nest.map_structure tf.zeros_like`. -/
def Fld.zerosLike (a : Fld) : Fld := ⟨a.nx, a.ny, a.nz, fun _ _ _ => 0⟩

/-- Modelled from the spec: the central-difference kernels (`kDx`, `kDy`,
`kDz`) of the StencilOps collaborator (`swirl_lm/utility/get_kernel_fn.py`,
not in the sources): `(kD f)ᵢ = fᵢ₊₁ − fᵢ₋₁` along the given axis. -/
def Fld.centralDiff (dim : Fin 3) (a : Fld) : Fld :=
  ⟨a.nx, a.ny, a.nz, fun i j k =>
    match dim with
    | ⟨0, _⟩ => a.val (i + 1) j k - a.val (i - 1) j k
    | ⟨1, _⟩ => a.val i (j + 1) k - a.val i (j - 1) k
    | ⟨2, _⟩ => a.val i j (k + 1) - a.val i j (k - 1)⟩

/-- Modelled from the spec: `calculus.divergence` (`swirl_lm/numerics/`, not
in the sources): the 3D divergence of a vector field by central differences,
`Σ_d (kD_d terms_d) / (2 h_d)`; shape inherited from the first component. -/
def divergence (terms : Fin 3 → Fld) (h : Fin 3 → ℚ) : Fld :=
  ⟨(terms 0).nx, (terms 0).ny, (terms 0).nz, fun i j k =>
    ((terms 0).centralDiff 0).val i j k / (2 * h 0) +
    ((terms 1).centralDiff 1).val i j k / (2 * h 1) +
    ((terms 2).centralDiff 2).val i j k / (2 * h 2)⟩

/-- Velocity gradient `∂u/∂x_d`, central difference over spacing `h d`. -/
def velGrad (h : Fin 3 → ℚ) (u : Fld) (d : Fin 3) : Fld :=
  (u.centralDiff d).map1 (fun x => x / (2 * h d))

/-- Modelled from the spec: `eq_utils.shear_stress` (`swirl_lm/equations/
utils.py`, not in the sources): the full shear-stress tensor
`τ_ij = μ (∂u_i/∂x_j + ∂u_j/∂x_i − (2/3) δ_ij ∇·u)` via central differences
of the velocity components scaled by `μ` and the grid spacings. -/
def shearStress (mu : Fld) (h : Fin 3 → ℚ) (u v w : Fld) :
    Fin 3 → Fin 3 → Fld :=
  fun i j =>
    let vel : Fin 3 → Fld := ![u, v, w]
    let divU := Fld.zip3W (fun a b c => a + b + c)
      (velGrad h u 0) (velGrad h v 1) (velGrad h w 2)
    let strain := Fld.zipW (· + ·) (velGrad h (vel i) j) (velGrad h (vel j) i)
    let sij := if i = j
      then Fld.zipW (fun s dv => s - 2 / 3 * dv) strain divU
      else strain
    Fld.zipW (· * ·) mu sij

/-- The per-scalar configuration proto: which sub-message is present
(`HasField`) and the optional-physics flags of the `total_energy` and
`potential_temperature` sub-messages. -/
structure ScalarParamsProto where
  hasTotalEnergy : Bool
  teRadiation : Bool
  teSubsidence : Bool
  tePrecipitation : Bool
  hasPotentialTemperature : Bool
  ptRadiation : Bool
  ptSubsidence : Bool

/-- The global simulation context consumed by the source specializations:
grid spacings `h`, halo width, kinematic viscosity `nu`, the sub-grid-scale
flag, the gravity axis (`None` when no gravity direction is configured), the
per-scalar proto, and (modelled from the spec, `ScalarGeneric` base class not
in the sources) the list of configured scalar names. -/
structure SwirlLMParams where
  h : Fin 3 → ℚ
  haloWidth : ℕ
  nu : ℚ
  useSgs : Bool
  gDim : Option (Fin 3)
  scalarParams : ScalarParamsProto
  configuredScalars : List String

/-- The subset of `states` consumed by the two source specializations. -/
structure States where
  u : Fld
  v : Fld
  w : Fld
  rho : Fld
  rho_thermal : Fld
  q_t : Fld
  q_r : Fld

/-- The subset of `additional_states` consumed by the two source
specializations; optional entries model key presence in the map. -/
structure AddlStates where
  zz : Option Fld
  T : Option Fld
  theta : Option Fld
  nu_t : Fld

/-- The call contract of the `water` thermodynamics model, embedded as a
bundle of total functions (external collaborator, `swirl_lm/physics/
thermodynamics/water.py`, not in the sources). -/
structure WaterFns where
  internalEnergyFromTotalEnergy : Fld → Fld → Fld → Fld → Fld → Fld
  saturationAdjustment : String → Fld → Fld → Fld → AddlStates → Fld
  saturationAdjustmentZZ : String → Fld → Fld → Fld → Fld → Fld
  potentialTemperatures : Fld → Fld → Fld → Fld → AddlStates → Fld
  potentialTemperaturesZZ : Fld → Fld → Fld → Fld → Fld
  totalEnthalpy : Fld → Fld → Fld → Fld → Fld
  equilibriumPhasePartition : Fld → Fld → Fld → Fld × Fld
  cp_m : Fld → Fld → Fld → Fld
  exnerInverse : Fld → Fld → Fld → Fld → Fld
  saturationExcess : Fld → Fld → Fld → Fld
  internalEnergyComponents : Fld → Fld × Fld × Fld

/-- The thermodynamics manager's model: the moist (`water`) variant carrying
its call contract, or any non-water variant (`isinstance(model, water.Water)`
discriminates). -/
inductive ThermoModel where
  | water (fns : WaterFns)
  | ideal

/-- The `Cloud` collaborator (`swirl_lm/physics/atmosphere/cloud.py`, not in
the sources): radiative source flux from liquid humidity, density, height,
gravity-axis spacing, gravity axis and halo widths.  The replica arguments of
the collective call are immaterial to the embedded single-replica value. -/
structure CloudFns where
  sourceByRadiation : Fld → Fld → Fld → ℚ → Fin 3 → List ℕ → Fld

/-- The `MicrophysicsKW1978` collaborator (not in the sources). -/
structure MicroFns where
  autoconversionAndAccretion : Fld → Fld → Fld
  evaporation : Fld → Fld → Fld → Fld → Fld → Fld → Fld

/-- Modelled from the spec: `eq_utils.source_by_subsidence_velocity`
(`swirl_lm/equations/utils.py`, not in the sources), embedded opaquely:
`(kernel_op, rho, zz, h_g, field, g_dim) ↦ −w_sub ∂(ρ·field)/∂z`. -/
structure SubsidenceFns where
  sourceBySubsidence : Fld → Fld → ℚ → Fld → Fin 3 → Fld

/-- Modelled from the spec: `constants.G`, the gravitational acceleration. -/
def constG : ℚ := 981 / 100

/-! ## TotalEnergy (`total_energy.py`) -/

/-- The state of a constructed `TotalEnergy` object: captured context plus the
`_include_*` flags computed in `__init__` and the collaborators built when the
thermodynamics model is `water`. -/
structure TotalEnergyCfg where
  params : SwirlLMParams
  scalarName : String
  thermo : ThermoModel
  includeRadiation : Bool
  includeSubsidence : Bool
  includePrecipitation : Bool
  cloudFns : CloudFns
  microFns : MicroFns

namespace TotalEnergy

/-- `TotalEnergy.__init__`: base-class construction (modelled from the spec:
`ScalarGeneric.__init__` is not in the sources; it fails with a
ConfigurationError when the scalar name is not among the configured scalars),
then the `scalar_name == 'e_t'` assertion, then the `_include_*` flags
(`HasField('total_energy') and <flag> and self._g_dim is not None`), then the
`water`-thermodynamics check which raises a ValueError for any other model. -/
def init (cloud : CloudFns) (micro : MicroFns) (params : SwirlLMParams)
    (scalarName : String) (thermo : ThermoModel) :
    Except String TotalEnergyCfg :=
  if scalarName ∉ params.configuredScalars then
    .error "ConfigurationError: scalar not configured"
  else if scalarName ≠ "e_t" then
    .error "AssertionError: TotalEnergy is for e_t only"
  else
    let ir := params.scalarParams.hasTotalEnergy &&
      params.scalarParams.teRadiation && params.gDim.isSome
    let is := params.scalarParams.hasTotalEnergy &&
      params.scalarParams.teSubsidence && params.gDim.isSome
    let ip := params.scalarParams.hasTotalEnergy &&
      params.scalarParams.tePrecipitation && params.gDim.isSome
    match thermo with
    | .water _ => .ok ⟨params, scalarName, thermo, ir, is, ip, cloud, micro⟩
    | .ideal =>
        .error "ValueError: water thermodynamics is required for total energy"

/-- The thermodynamic variables returned by
`TotalEnergy._get_thermodynamic_variables` (the map's entries). -/
structure ThermoStatesTE where
  phi : Fld
  q_t : Fld
  zz : Fld
  T : Fld
  theta : Fld
  h_t : Fld

/-- `TotalEnergy._get_thermodynamic_variables` in the `water` case: height
`zz` defaults to zeros like `phi`; temperature is taken from
`additional_states` when present, otherwise recovered by saturation
adjustment of the internal energy; `theta` is taken from `additional_states`
when present, otherwise computed; total enthalpy from the model. -/
def getThermodynamicVariables (w : WaterFns) (phi : Fld) (states : States)
    (addl : AddlStates) : ThermoStatesTE :=
  let zz := addl.zz.getD phi.zerosLike
  let q_t := states.q_t
  let rho_thermal := states.rho_thermal
  let temperature :=
    match addl.T with
    | some t => t
    | none =>
        let e := w.internalEnergyFromTotalEnergy phi states.u states.v
          states.w zz
        w.saturationAdjustment "e_int" e rho_thermal q_t addl
  let theta :=
    match addl.theta with
    | some t => t
    | none => w.potentialTemperatures temperature q_t rho_thermal zz addl
  let h_t := w.totalEnthalpy phi rho_thermal q_t temperature
  ⟨phi, q_t, zz, temperature, theta, h_t⟩

/-- `u * tau_0j + v * tau_1j + w * tau_2j` (`u_dot_tau`). -/
def uDotTau (u v w t0 t1 t2 : ℚ) : ℚ := u * t0 + v * t1 + w * t2

/-- `TotalEnergy.source_fn`: raises when the thermodynamics model is not
`water`; otherwise assembles the divergence of `rho u_i tau_ij` (with the
gravity-axis component corrected by `−ρ·f_radiation` when radiation is
enabled) plus the optional subsidence and precipitation terms. -/
def sourceFn (cfg : TotalEnergyCfg) (subs : SubsidenceFns) (phi : Fld)
    (states : States) (addl : AddlStates) : Except String Fld :=
  match cfg.thermo with
  | .ideal =>
      .error "ValueError: water thermodynamics is required for total energy"
  | .water w =>
    let rho := states.rho
    let rho_thermal := states.rho_thermal
    let ts := getThermodynamicVariables w phi states addl
    let mu := if cfg.params.useSgs
      then Fld.zipW (fun nu_t rho_i => (cfg.params.nu + nu_t) * rho_i)
        addl.nu_t rho
      else rho.map1 (fun rho_i => cfg.params.nu * rho_i)
    let tau := shearStress mu cfg.params.h states.u states.v states.w
    let rho_u_tau : Fin 3 → Fld := fun j =>
      Fld.zip6W uDotTau states.u states.v states.w (tau 0 j) (tau 1 j)
        (tau 2 j)
    let div_terms := rho_u_tau
    let q_l := if cfg.includeRadiation || cfg.includePrecipitation
      then (w.equilibriumPhasePartition ts.T states.rho_thermal ts.q_t).1
      else phi.zerosLike
    let div_terms :=
      match cfg.includeRadiation, cfg.params.gDim with
      | true, some g =>
          let halos := [cfg.params.haloWidth, cfg.params.haloWidth,
            cfg.params.haloWidth]
          let f_r := cfg.cloudFns.sourceByRadiation q_l states.rho_thermal
            ts.zz (cfg.params.h g) g halos
          Function.update div_terms g
            (Fld.zip3W (fun div_term_i rho_i f_r_i => div_term_i -
              rho_i * f_r_i) (div_terms g) rho f_r)
      | _, _ => div_terms
    let source := divergence div_terms cfg.params.h
    let source :=
      match cfg.includeSubsidence, cfg.params.gDim with
      | true, some g =>
          let src_subsidence := subs.sourceBySubsidence rho ts.zz
            (cfg.params.h g) ts.h_t g
          Fld.zipW (· + ·) source src_subsidence
      | _, _ => source
    let source :=
      if cfg.includePrecipitation then
        let evl := w.internalEnergyComponents ts.T
        let e_v := evl.1
        let e_l := evl.2.1
        let q_r := states.q_r
        let cloud_liquid_to_rain_water_rate :=
          cfg.microFns.autoconversionAndAccretion q_r q_l
        let q_c := w.saturationExcess ts.T rho_thermal ts.q_t
        let q_v := Fld.zipW (· - ·) ts.q_t q_c
        let rain_water_evaporation_rate :=
          cfg.microFns.evaporation rho_thermal ts.T q_r q_v q_l q_c
        let pe := ts.zz.map1 (fun zz_i => constG * zz_i)
        let source_v := Fld.zip4W
          (fun e pe rho c_lv => (e + pe) * rho * (-c_lv)) e_v pe rho
          rain_water_evaporation_rate
        let source_l := Fld.zip4W
          (fun e pe rho c_lr => (e + pe) * rho * c_lr) e_l pe rho
          cloud_liquid_to_rain_water_rate
        Fld.zip3W (fun s sv sl => s + sv + sl) source source_v source_l
      else source
    .ok source

end TotalEnergy

/-! ## PotentialTemperature (`potential_temperature.py`) -/

/-- The state of a constructed `PotentialTemperature` object: captured context
plus the `_include_*` flags computed in `__init__` and the collaborators built
when the thermodynamics model is `water` (`None` otherwise). -/
structure PotentialTemperatureCfg where
  params : SwirlLMParams
  scalarName : String
  thermo : ThermoModel
  includeRadiation : Bool
  includeSubsidence : Bool
  cloudFns : Option CloudFns
  microFns : Option MicroFns

namespace PotentialTemperature

/-- `PotentialTemperature.__init__`: base-class construction (modelled from
the spec: `ScalarGeneric.__init__` is not in the sources; it fails with a
ConfigurationError when the scalar name is not among the configured scalars),
then the assertion `scalar_name in ('theta', 'theta_li')`, then the
collaborators (built only for `water` thermodynamics, `None` otherwise — no
error), then the `_include_*` flags
(`HasField('potential_temperature') and <flag> and self._g_dim is not None`).
-/
def init (cloud : CloudFns) (micro : MicroFns) (params : SwirlLMParams)
    (scalarName : String) (thermo : ThermoModel) :
    Except String PotentialTemperatureCfg :=
  if scalarName ∉ params.configuredScalars then
    .error "ConfigurationError: scalar not configured"
  else if scalarName ≠ "theta" ∧ scalarName ≠ "theta_li" then
    .error "AssertionError: unsupported potential temperature type"
  else
    let cl : Option CloudFns :=
      match thermo with | .water _ => some cloud | .ideal => none
    let mi : Option MicroFns :=
      match thermo with | .water _ => some micro | .ideal => none
    let ir := params.scalarParams.hasPotentialTemperature &&
      params.scalarParams.ptRadiation && params.gDim.isSome
    let is := params.scalarParams.hasPotentialTemperature &&
      params.scalarParams.ptSubsidence && params.gDim.isSome
    .ok ⟨params, scalarName, thermo, ir, is, cl, mi⟩

/-- The thermodynamic variables returned by
`PotentialTemperature._get_thermodynamic_variables` in the `water` case
(`theta` present only for `theta_li`). -/
structure ThermoStatesPT where
  phi : Fld
  zz : Fld
  T : Fld
  theta : Option Fld
  q_l : Fld
  q_i : Fld

/-- `PotentialTemperature._get_thermodynamic_variables` in the `water` case:
height `zz` defaults to zeros like `phi`; temperature by saturation
adjustment on the scalar itself; `theta` computed only for `theta_li`;
liquid/ice humidity by equilibrium phase partition. -/
def getThermodynamicVariables (w : WaterFns) (scalarName : String) (phi : Fld)
    (states : States) (addl : AddlStates) : ThermoStatesPT :=
  let q_t := states.q_t
  let rho_thermal := states.rho_thermal
  let zz := addl.zz.getD phi.zerosLike
  let temperature := w.saturationAdjustmentZZ scalarName phi rho_thermal q_t zz
  let theta := if scalarName = "theta_li"
    then some (w.potentialTemperaturesZZ temperature q_t rho_thermal zz)
    else none
  let ql_qi := w.equilibriumPhasePartition temperature rho_thermal q_t
  ⟨phi, zz, temperature, theta, ql_qi.1, ql_qi.2⟩

/-- `PotentialTemperature.source_fn`: starts from zeros like `phi`; the
radiation block (guarded by the flag and `isinstance(model, water.Water)`)
overwrites the source with the gravity-axis central-difference divergence of
`−ρ·f_r` scaled pointwise by `cp_m⁻¹ · exner⁻¹`; the subsidence block
(guarded by the flag, the `water` check and `scalar_name == 'theta_li'`) adds
the subsidence term on `phi`. -/
def sourceFn (cfg : PotentialTemperatureCfg) (subs : SubsidenceFns)
    (phi : Fld) (states : States) (addl : AddlStates) : Fld :=
  let source := Fld.zerosLike phi
  match cfg.thermo with
  | .ideal => source
  | .water w =>
    let ts := getThermodynamicVariables w cfg.scalarName phi states addl
    let source :=
      match cfg.includeRadiation, cfg.params.gDim, cfg.cloudFns with
      | true, some g, some cl =>
          let halos := [cfg.params.haloWidth, cfg.params.haloWidth,
            cfg.params.haloWidth]
          let f_r := cl.sourceByRadiation ts.q_l states.rho_thermal ts.zz
            (cfg.params.h g) g halos
          let rad_src := Fld.zipW (fun rho f_r => -rho * f_r) states.rho f_r
          let source := (rad_src.centralDiff g).map1
            (fun f => f / (2 * cfg.params.h g))
          let cp_m := w.cp_m states.q_t ts.q_l ts.q_i
          let cp_m_inv := cp_m.map1 (fun c => c⁻¹)
          let exner_inv := w.exnerInverse states.rho_thermal states.q_t ts.T
            ts.zz
          let cp_m_exner_inv := Fld.zipW (· * ·) cp_m_inv exner_inv
          Fld.zipW (· * ·) cp_m_exner_inv source
      | _, _, _ => source
    match cfg.includeSubsidence, cfg.params.gDim,
        decide (cfg.scalarName = "theta_li") with
    | true, some g, true =>
        let src_subsidence := subs.sourceBySubsidence states.rho ts.zz
          (cfg.params.h g) phi g
        Fld.zipW (· + ·) source src_subsidence
    | _, _, _ => source

end PotentialTemperature

/-! ## Outflow boundary condition (`boundary_condition/outflow.py`)

Fields here keep the finite list-of-slices structure (`List` of 2D slices,
each a list of rows, each row a list of rationals) because the update indexes
concrete rows of concrete slices.  The embedding is the single-replica
instance: `common_ops.global_reduce` (external collaborator, not in the
sources; modelled from the spec) reduces the concatenated face rows with
max/sum over the one reduction group. -/

namespace Outflow

abbrev Row := List ℚ
abbrev Slice := List Row
abbrev FieldL := List Slice
abbrev StatesMap := List (String × FieldL)

/-- Python dict read `m[k]`, defaulting to the empty field (keys looked up by
the update are assumed present, as in the Python). -/
def lookupD (m : StatesMap) (k : String) : FieldL := (m.lookup k).getD []

/-- `\w` of the Python `re` module: letters, digits and underscore. -/
def isWordChar (c : Char) : Bool := c.isAlphanum || c = '_'

/-- The literal tail `_0_1` of the pattern `bc_(\w+)_0_1`. -/
def litSuffix : List Char := ['_', '0', '_', '1']

/-- Greedy capture for `(\w+)_0_1` against the maximal word-character prefix
`wp`: the largest `k ≥ 1` such that `_0_1` follows `wp.take k` inside `wp`
(the characters of `_0_1` are word characters, so a match never extends past
`wp`).  Counts down from `k`, mirroring greedy backtracking. -/
def tryK : ℕ → List Char → Option (List Char)
  | 0, _ => none
  | k + 1, wp =>
      if (wp.drop (k + 1)).take 4 = litSuffix then some (wp.take (k + 1))
      else tryK k wp

/-- Attempt to match `bc_(\w+)_0_1` at the head of the character list,
returning the capture group. -/
def matchHere : List Char → Option (List Char)
  | 'b' :: 'c' :: '_' :: rest =>
      let wp := rest.takeWhile isWordChar
      tryK wp.length wp
  | _ => none

/-- `re.search(r'bc_(\w+)_0_1', key)` over the characters of `key`: leftmost
match, greedy group; returns the capture of group 1 (which also equals
`re.split(r'bc_(\w+)_0_1', key)[1]` on a match). -/
def searchBC : List Char → Option (List Char)
  | [] => none
  | c :: cs => (matchHere (c :: cs)).orElse (fun _ => searchBC cs)

/-- The variable name captured from a boundary-condition key, `none` when the
key does not match `bc_(\w+)_0_1`. -/
def matchBC (key : String) : Option String :=
  (searchBC key.data).map (fun cs => ⟨cs⟩)

/-- `tf.math.reduce_max` over a concatenated 1D tensor (modelled from the
spec as part of the single-replica `global_reduce`). -/
def reduceMax : List ℚ → ℚ
  | [] => 0
  | a :: as => as.foldl max a

/-- The row `s[-halo_width - 1, :]` of a slice (Python negative indexing). -/
def outletRow (hw : ℕ) (s : Slice) : Row := s.getD (s.length - (hw + 1)) []

/-- The row `s[halo_width, :]` of a slice. -/
def inletRow (hw : ℕ) (s : Slice) : Row := s.getD hw []

/-- `u_max`: the global max over the concatenation of the outlet-face rows
`u_i[-halo_width - 1, :]` of every slice of `u`. -/
def uMax (hw : ℕ) (u : FieldL) : ℚ := reduceMax (u.map (outletRow hw)).flatten

/-- `mass_flux_x_face`: the global sum of `rho_i[face, :] * u_i[face, :]`
concatenated over the slices, for the face selected by `pick`. -/
def massFluxXFace (rho u : FieldL) (pick : Slice → Row) : ℚ :=
  ((List.zipWith (fun rho_i u_i =>
    List.zipWith (· * ·) (pick rho_i) (pick u_i)) rho u).flatten).sum

/-- `update_boundary_values(var_name)`: per-slice, each row of the boundary
buffer is advanced to `factor * (coeff * b + (1 - coeff) * upstream)` against
the outlet-face row of `states[var_name]`, with
`factor = mass_correction if var_name == 'u' else 1.0`. -/
def updateBoundaryValues (hw : ℕ) (coeff massCorrection : ℚ)
    (states additional : StatesMap) (var : String) : FieldL :=
  let bcName := "bc_" ++ var ++ "_0_1"
  let factor := if var = "u" then massCorrection else 1
  List.zipWith (fun u_j u_j_1 =>
      u_j.map (fun rowB => List.zipWith
        (fun b up => factor * (coeff * b + (1 - coeff) * up))
        rowB (outletRow hw u_j_1)))
    (lookupD additional bcName) (lookupD states var)

/-- The boundary-update function returned by `outflow_boundary_condition`:
computes `u_max`, `cfl = dt * u_max / dx`, `coeff = 1 - cfl`, the inlet and
outlet mass fluxes and their ratio, then rebuilds `additional_states`,
replacing exactly the entries whose key matches `bc_(\w+)_0_1`. -/
def getBoundaryUpdateFn (dt dx : ℚ) (hw : ℕ)
    (states additional : StatesMap) : StatesMap :=
  let um := uMax hw (lookupD states "u")
  let cfl := dt * um / dx
  let coeff := 1 - cfl
  let massExit := massFluxXFace (lookupD states "rho") (lookupD states "u")
    (outletRow hw)
  let massInlet := massFluxXFace (lookupD states "rho") (lookupD states "u")
    (inletRow hw)
  let massCorrection := massInlet / massExit
  additional.map (fun kv =>
    match matchBC kv.1 with
    | some var =>
        (kv.1, updateBoundaryValues hw coeff massCorrection states
          additional var)
    | none => kv)

/-- The claim's update formula, written from the spec's words: the updated
boundary value is `(1 − c)·old + c·upstream` with `c = Δt·u_max/Δx`, `u_max`
the global outlet-face maximum of `u`, and no mass-flux correction factor. -/
def specUpdateFormula (dt dx : ℚ) (hw : ℕ) (states additional : StatesMap)
    (var : String) : FieldL :=
  let c := dt * uMax hw (lookupD states "u") / dx
  List.zipWith (fun oldSlice upSlice =>
      oldSlice.map (fun rowB => List.zipWith
        (fun b up => (1 - c) * b + c * up) rowB (outletRow hw upSlice)))
    (lookupD additional ("bc_" ++ var ++ "_0_1")) (lookupD states var)

/-- Scaling of a field by a constant factor. -/
def scaleF (r : ℚ) (f : FieldL) : FieldL :=
  f.map (fun s => s.map (fun row => row.map (fun x => r * x)))

theorem zipWith_ext {α β γ : Type} (f g : α → β → γ)
    (h : ∀ a b, f a b = g a b) (l : List α) (l' : List β) :
    List.zipWith f l l' = List.zipWith g l l' := by
  have hfg : f = g := funext fun a => funext fun b => h a b
  rw [hfg]

theorem updateBoundaryValues_ne_u (hw : ℕ) (c mc : ℚ)
    (states additional : StatesMap) (var : String) (hu : var ≠ "u") :
    updateBoundaryValues hw (1 - c) mc states additional var =
      List.zipWith (fun oldSlice upSlice =>
          oldSlice.map (fun rowB => List.zipWith
            (fun b up => (1 - c) * b + c * up) rowB (outletRow hw upSlice)))
        (lookupD additional ("bc_" ++ var ++ "_0_1")) (lookupD states var) := by
  unfold updateBoundaryValues
  simp only [if_neg hu]
  refine zipWith_ext _ _ (fun u_j u_j_1 => ?_) _ _
  refine List.map_congr_left (fun rowB _ => ?_)
  refine zipWith_ext _ _ (fun b up => ?_) _ _
  ring

theorem updateBoundaryValues_u (hw : ℕ) (c mc : ℚ)
    (states additional : StatesMap) :
    updateBoundaryValues hw (1 - c) mc states additional "u" =
      scaleF mc (List.zipWith (fun oldSlice upSlice =>
          oldSlice.map (fun rowB => List.zipWith
            (fun b up => (1 - c) * b + c * up) rowB (outletRow hw upSlice)))
        (lookupD additional ("bc_" ++ "u" ++ "_0_1")) (lookupD states "u")) := by
  unfold updateBoundaryValues scaleF
  simp only [show (if ("u" : String) = "u" then mc else 1) = mc from
    if_pos rfl, List.map_zipWith]
  refine zipWith_ext _ _ (fun u_j u_j_1 => ?_) _ _
  rw [List.map_map]
  refine List.map_congr_left (fun rowB _ => ?_)
  simp only [Function.comp_apply, List.map_zipWith]
  refine zipWith_ext _ _ (fun b up => ?_) _ _
  simp only [if_true]
  ring

end Outflow

/-! ## Claims about the outflow boundary condition -/

/-- Fixture: single-replica states with `u`, `rho` and a passive scalar `s`
on one slice of four rows, halo width 1 (outlet-face row index 2, inlet row
index 1). -/
def exStates : Outflow.StatesMap :=
  [("u", [[[0], [2], [1], [0]]]),
   ("rho", [[[1], [1], [1], [1]]]),
   ("s", [[[4], [4], [6], [4]]])]

/-- Fixture: boundary-condition buffers plus a non-matching helper entry. -/
def exAddl : Outflow.StatesMap :=
  [("bc_u_0_1", [[[5]]]), ("bc_s_0_1", [[[3]]]), ("zz", [[[7]]])]

/-- Claim C1, counterexample: at the fixture input the returned value of the
`bc_u_0_1` entry is the mass-flux-corrected value `2`, not the value `1` of
the claimed formula `(1−c)·old + c·upstream`: the claim as stated (for every
key `bc_<var>_0_1`) fails on the variable `u`. -/
theorem c1_counterexample :
    (Outflow.getBoundaryUpdateFn 1 1 1 exStates exAddl)[0]? ≠
      some ("bc_u_0_1", Outflow.specUpdateFormula 1 1 1 exStates exAddl "u")
      := by with_unfolding_all decide

/-- Claim C1, amended: for every boundary-condition key `bc_<var>_0_1` of
`additional_states` with `var ≠ 'u'`, the updated boundary value equals
`(1−c)·old + c·upstream` where `c = Δt·u_max/Δx` and `u_max` is the global
maximum of `u` over the outlet-face slice, with no clamping of `c`; the
`bc_u_0_1` entry is additionally multiplied by the mass-flux correction
factor. -/
theorem c1_outflow_update_formula (dt dx : ℚ) (hw : ℕ)
    (states additional : Outflow.StatesMap) (i : ℕ) (k : String)
    (v : Outflow.FieldL) (var : String)
    (hkv : additional[i]? = some (k, v))
    (hm : Outflow.matchBC k = some var) (hu : var ≠ "u") :
    (Outflow.getBoundaryUpdateFn dt dx hw states additional)[i]? =
      some (k, Outflow.specUpdateFormula dt dx hw states additional var) := by
  simp only [Outflow.getBoundaryUpdateFn, List.getElem?_map, hkv,
    Option.map_some', hm]
  rw [Outflow.updateBoundaryValues_ne_u _ _ _ _ _ _ hu]
  rfl

/-- Claim C1, witness: a concrete run with `c = Δt·u_max/Δx = 2 > 1`
(demonstrating that no clamping occurs): the `bc_s_0_1` entry is advanced to
`(1−2)·3 + 2·6 = 9`. -/
theorem c1_witness :
    exAddl[1]? = some ("bc_s_0_1", [[[3]]]) ∧
    Outflow.matchBC "bc_s_0_1" = some "s" ∧ "s" ≠ "u" ∧
    (Outflow.getBoundaryUpdateFn 2 1 1 exStates exAddl)[1]? =
      some ("bc_s_0_1", Outflow.specUpdateFormula 2 1 1 exStates exAddl "s") ∧
    Outflow.specUpdateFormula 2 1 1 exStates exAddl "s" = [[[9]]] :=
  ⟨by decide, by decide, by decide,
    c1_outflow_update_formula 2 1 1 exStates exAddl 1 "bc_s_0_1" [[[3]]] "s"
      (by decide) (by decide) (by decide), by with_unfolding_all decide⟩

/-- Claim C5: the mass-flux correction factor (inlet mass flux over outlet mass
flux, both global-reduce sums of `ρ·u` over the respective x faces) scales
only the `u` boundary value: the corrected `bc_u_0_1` entry equals `r` times
the uncorrected update, and for any `var ≠ 'u'` the update carries factor
exactly 1 (it equals the uncorrected formula). -/
theorem c5_mass_correction_only_u (dt dx : ℚ) (hw : ℕ)
    (states additional : Outflow.StatesMap) (i : ℕ) (k : String)
    (v : Outflow.FieldL)
    (hkv : additional[i]? = some (k, v))
    (hm : Outflow.matchBC k = some "u") :
    (Outflow.getBoundaryUpdateFn dt dx hw states additional)[i]? =
      some (k, Outflow.scaleF
        (Outflow.massFluxXFace (Outflow.lookupD states "rho")
            (Outflow.lookupD states "u") (Outflow.inletRow hw) /
          Outflow.massFluxXFace (Outflow.lookupD states "rho")
            (Outflow.lookupD states "u") (Outflow.outletRow hw))
        (Outflow.specUpdateFormula dt dx hw states additional "u")) ∧
    (∀ (c mc : ℚ) (var : String), var ≠ "u" →
      Outflow.updateBoundaryValues hw (1 - c) mc states additional var =
        List.zipWith (fun oldSlice upSlice =>
            oldSlice.map (fun rowB => List.zipWith
              (fun b up => (1 - c) * b + c * up) rowB
              (Outflow.outletRow hw upSlice)))
          (Outflow.lookupD additional ("bc_" ++ var ++ "_0_1"))
          (Outflow.lookupD states var)) := by
  constructor
  · simp only [Outflow.getBoundaryUpdateFn, List.getElem?_map, hkv,
      Option.map_some', hm]
    rw [Outflow.updateBoundaryValues_u]
    rfl
  · intro c mc var hu
    exact Outflow.updateBoundaryValues_ne_u hw c mc states additional var hu

/-- Claim C5, witness: at the fixture input the inlet/outlet flux ratio is
`r = 2` and the corrected `bc_u_0_1` value is `2·((1−1)·5 + 1·1) = 2`. -/
theorem c5_witness :
    exAddl[0]? = some ("bc_u_0_1", [[[5]]]) ∧
    Outflow.matchBC "bc_u_0_1" = some "u" ∧
    (Outflow.getBoundaryUpdateFn 1 1 1 exStates exAddl)[0]? =
      some ("bc_u_0_1", Outflow.scaleF
        (Outflow.massFluxXFace (Outflow.lookupD exStates "rho")
            (Outflow.lookupD exStates "u") (Outflow.inletRow 1) /
          Outflow.massFluxXFace (Outflow.lookupD exStates "rho")
            (Outflow.lookupD exStates "u") (Outflow.outletRow 1))
        (Outflow.specUpdateFormula 1 1 1 exStates exAddl "u")) ∧
    Outflow.massFluxXFace (Outflow.lookupD exStates "rho")
        (Outflow.lookupD exStates "u") (Outflow.inletRow 1) /
      Outflow.massFluxXFace (Outflow.lookupD exStates "rho")
        (Outflow.lookupD exStates "u") (Outflow.outletRow 1) = 2 :=
  ⟨by decide, by decide,
    (c5_mass_correction_only_u 1 1 1 exStates exAddl 0 "bc_u_0_1" [[[5]]]
      (by decide) (by decide)).1, by with_unfolding_all decide⟩

/-- Claim C10: the outflow update returns a map with exactly the key list of
its input, and every entry whose key does not match `bc_(\w+)_0_1` is
returned unchanged. -/
theorem c10_outflow_frame (dt dx : ℚ) (hw : ℕ)
    (states additional : Outflow.StatesMap) (i : ℕ) (k : String)
    (v : Outflow.FieldL)
    (hkv : additional[i]? = some (k, v))
    (hnone : Outflow.matchBC k = none) :
    (Outflow.getBoundaryUpdateFn dt dx hw states additional).map Prod.fst =
      additional.map Prod.fst ∧
    (Outflow.getBoundaryUpdateFn dt dx hw states additional)[i]? =
      some (k, v) := by
  constructor
  · simp only [Outflow.getBoundaryUpdateFn, List.map_map]
    refine List.map_congr_left (fun kv _ => ?_)
    rcases h : Outflow.matchBC kv.1 with _ | var <;> simp [h]
  · simp only [Outflow.getBoundaryUpdateFn, List.getElem?_map, hkv,
      Option.map_some', hnone]

/-- Claim C10, witness: the non-matching entry `zz` of the fixture is returned
unchanged and the key list is preserved. -/
theorem c10_witness :
    exAddl[2]? = some ("zz", [[[7]]]) ∧ Outflow.matchBC "zz" = none ∧
    ((Outflow.getBoundaryUpdateFn 1 1 1 exStates exAddl).map Prod.fst =
      exAddl.map Prod.fst ∧
    (Outflow.getBoundaryUpdateFn 1 1 1 exStates exAddl)[2]? =
      some ("zz", [[[7]]])) :=
  ⟨by decide, by decide,
    c10_outflow_frame 1 1 1 exStates exAddl 2 "zz" [[[7]]]
      (by decide) (by decide)⟩

/-! ## Claims about the source-function specializations -/

/-- Fixture: a 1×1×1 field with constant value 0. -/
def fld0 : Fld := ⟨1, 1, 1, fun _ _ _ => 0⟩

/-- Fixture: a trivial instance of the water-thermodynamics call contract. -/
def exWaterFns : WaterFns :=
  ⟨fun p _ _ _ _ => p, fun _ v _ _ _ => v, fun _ v _ _ _ => v,
   fun t _ _ _ _ => t, fun t _ _ _ => t, fun p _ _ _ => p,
   fun t _ _ => (t, t), fun q _ _ => q, fun r _ _ _ => r,
   fun t _ _ => t, fun t => (t, t, t)⟩

/-- Fixture: a Cloud collaborator echoing its first argument. -/
def exCloudFns : CloudFns := ⟨fun q _ _ _ _ _ => q⟩

/-- Fixture: a Cloud collaborator returning an identically-zero radiative
flux field. -/
def exZeroCloudFns : CloudFns := ⟨fun q _ _ _ _ _ => q.zerosLike⟩

/-- Fixture: a trivial microphysics collaborator. -/
def exMicroFns : MicroFns := ⟨fun q _ => q, fun r _ _ _ _ _ => r⟩

/-- Fixture: a trivial subsidence collaborator. -/
def exSubsFns : SubsidenceFns := ⟨fun rho _ _ _ _ => rho⟩

/-- Fixture: per-scalar proto with every optional-physics flag enabled. -/
def exProto : ScalarParamsProto := ⟨true, true, true, true, true, true, true⟩

/-- Fixture: global params with gravity axis 2 and all scalars configured. -/
def exParams : SwirlLMParams :=
  ⟨fun _ => 1, 1, 1, false, some 2, exProto, ["e_t", "theta", "theta_li"]⟩

/-- Fixture: the same global params with no gravity axis configured. -/
def exParamsNoG : SwirlLMParams := { exParams with gDim := none }

/-- Claim C2: constructing `TotalEnergy` with a non-water thermodynamics model
always fails at construction time; with the water variant it succeeds for
scalar name `e_t` (configured). -/
theorem c2_total_energy_requires_water (cloud : CloudFns) (micro : MicroFns)
    (params : SwirlLMParams) :
    (∀ (name : String) (cfg : TotalEnergyCfg),
      TotalEnergy.init cloud micro params name ThermoModel.ideal ≠
        Except.ok cfg) ∧
    (∀ w : WaterFns, "e_t" ∈ params.configuredScalars →
      ∃ cfg, TotalEnergy.init cloud micro params "e_t"
        (ThermoModel.water w) = Except.ok cfg) := by
  constructor
  · intro name cfg h
    unfold TotalEnergy.init at h
    split at h
    · exact Except.noConfusion h
    · split at h
      · exact Except.noConfusion h
      · exact Except.noConfusion h
  · intro w hconf
    unfold TotalEnergy.init
    rw [if_neg (not_not_intro hconf), if_neg (by simp)]
    exact ⟨_, rfl⟩

/-- Claim C2, witness: with the fixture configuration, construction with the
non-water model fails and construction with the water model succeeds. -/
theorem c2_witness :
    "e_t" ∈ exParams.configuredScalars ∧
    TotalEnergy.init exCloudFns exMicroFns exParams "e_t" ThermoModel.ideal ≠
      Except.ok ⟨exParams, "e_t", ThermoModel.water exWaterFns, false, false,
        false, exCloudFns, exMicroFns⟩ ∧
    ∃ cfg, TotalEnergy.init exCloudFns exMicroFns exParams "e_t"
      (ThermoModel.water exWaterFns) = Except.ok cfg :=
  ⟨by decide,
   (c2_total_energy_requires_water exCloudFns exMicroFns exParams).1 "e_t" _,
   (c2_total_energy_requires_water exCloudFns exMicroFns exParams).2
     exWaterFns (by decide)⟩

/-- Claim C6: constructing `PotentialTemperature` with a configured scalar name
other than `theta`/`theta_li` fails with the assertion error; for those two
names the name check passes and construction succeeds. -/
theorem c6_potential_temperature_name_check (cloud : CloudFns)
    (micro : MicroFns) (params : SwirlLMParams) (thermo : ThermoModel) :
    (∀ name : String, name ∈ params.configuredScalars → name ≠ "theta" →
      name ≠ "theta_li" →
      PotentialTemperature.init cloud micro params name thermo =
        Except.error "AssertionError: unsupported potential temperature type")
    ∧
    (∀ name : String, (name = "theta" ∨ name = "theta_li") →
      name ∈ params.configuredScalars →
      ∃ cfg, PotentialTemperature.init cloud micro params name thermo =
        Except.ok cfg) := by
  constructor
  · intro name hmem h1 h2
    unfold PotentialTemperature.init
    rw [if_neg (not_not_intro hmem), if_pos ⟨h1, h2⟩]
  · intro name hname hmem
    have hcond : ¬(name ≠ "theta" ∧ name ≠ "theta_li") := by
      rcases hname with rfl | rfl
      · exact fun hc => hc.1 rfl
      · exact fun hc => hc.2 rfl
    unfold PotentialTemperature.init
    rw [if_neg (not_not_intro hmem), if_neg hcond]
    exact ⟨_, rfl⟩

/-- Claim C6, witness: with the fixture configuration, the name `theta_li`
constructs successfully while a configured name `e_t` fails the assertion. -/
theorem c6_witness :
    "e_t" ∈ exParams.configuredScalars ∧ "e_t" ≠ "theta" ∧
    "e_t" ≠ "theta_li" ∧
    PotentialTemperature.init exCloudFns exMicroFns exParams "e_t"
      (ThermoModel.water exWaterFns) =
      Except.error "AssertionError: unsupported potential temperature type" ∧
    ∃ cfg, PotentialTemperature.init exCloudFns exMicroFns exParams
      "theta_li" (ThermoModel.water exWaterFns) = Except.ok cfg :=
  ⟨by decide, by decide, by decide,
   (c6_potential_temperature_name_check exCloudFns exMicroFns exParams
     (ThermoModel.water exWaterFns)).1 "e_t" (by decide) (by decide)
     (by decide),
   (c6_potential_temperature_name_check exCloudFns exMicroFns exParams
     (ThermoModel.water exWaterFns)).2 "theta_li" (Or.inr rfl) (by decide)⟩

/-- Claim C9: with no gravity axis configured (`g_dim = None`), every
constructed `TotalEnergy` has radiation, subsidence and precipitation
disabled and every constructed `PotentialTemperature` has radiation and
subsidence disabled, regardless of the configuration flags. -/
theorem c9_gravity_axis_gates_optional_terms (cloud : CloudFns)
    (micro : MicroFns) (params : SwirlLMParams) (name : String)
    (thermo : ThermoModel) (hg : params.gDim = none) :
    (∀ cfg, TotalEnergy.init cloud micro params name thermo = Except.ok cfg →
      cfg.includeRadiation = false ∧ cfg.includeSubsidence = false ∧
        cfg.includePrecipitation = false) ∧
    (∀ cfg, PotentialTemperature.init cloud micro params name thermo =
        Except.ok cfg →
      cfg.includeRadiation = false ∧ cfg.includeSubsidence = false) := by
  constructor
  · intro cfg h
    unfold TotalEnergy.init at h
    split at h
    · exact Except.noConfusion h
    · split at h
      · exact Except.noConfusion h
      · split at h
        · simp only [Except.ok.injEq] at h
          subst h
          simp [hg]
        · exact Except.noConfusion h
  · intro cfg h
    unfold PotentialTemperature.init at h
    split at h
    · exact Except.noConfusion h
    · split at h
      · exact Except.noConfusion h
      · simp only [Except.ok.injEq] at h
        subst h
        simp [hg]

/-- Claim C9, witness: with the no-gravity fixture params (all optional-physics
proto flags enabled), both constructions yield all-false include flags. -/
theorem c9_witness :
    exParamsNoG.gDim = none ∧
    exParamsNoG.scalarParams.teRadiation = true ∧
    exParamsNoG.scalarParams.ptSubsidence = true ∧
    ((⟨exParamsNoG, "e_t", ThermoModel.water exWaterFns, false, false, false,
        exCloudFns, exMicroFns⟩ : TotalEnergyCfg).includeRadiation = false ∧
      (⟨exParamsNoG, "e_t", ThermoModel.water exWaterFns, false, false, false,
        exCloudFns, exMicroFns⟩ : TotalEnergyCfg).includeSubsidence = false ∧
      (⟨exParamsNoG, "e_t", ThermoModel.water exWaterFns, false, false, false,
        exCloudFns, exMicroFns⟩ : TotalEnergyCfg).includePrecipitation =
        false) ∧
    ((⟨exParamsNoG, "theta_li", ThermoModel.water exWaterFns, false, false,
        some exCloudFns, some exMicroFns⟩ :
        PotentialTemperatureCfg).includeRadiation = false ∧
      (⟨exParamsNoG, "theta_li", ThermoModel.water exWaterFns, false, false,
        some exCloudFns, some exMicroFns⟩ :
        PotentialTemperatureCfg).includeSubsidence = false) :=
  ⟨rfl, rfl, rfl,
   (c9_gravity_axis_gates_optional_terms exCloudFns exMicroFns exParamsNoG
     "e_t" (ThermoModel.water exWaterFns) rfl).1 _
     (by with_unfolding_all rfl),
   (c9_gravity_axis_gates_optional_terms exCloudFns exMicroFns exParamsNoG
     "theta_li" (ThermoModel.water exWaterFns) rfl).2 _
     (by with_unfolding_all rfl)⟩

/-- Fixture: states whose fields are all the zero 1×1×1 field. -/
def exStatesF : States := ⟨fld0, fld0, fld0, fld0, fld0, fld0, fld0⟩

/-- Fixture: additional states with no optional entries. -/
def exAddlF : AddlStates := ⟨none, none, none, fld0⟩

/-- Fixture: `PotentialTemperature` configuration for `theta` with subsidence
enabled and radiation disabled. -/
def exPTCfgTheta : PotentialTemperatureCfg :=
  ⟨exParams, "theta", ThermoModel.water exWaterFns, false, true,
    some exCloudFns, some exMicroFns⟩

/-- Fixture: the same configuration for `theta_li`. -/
def exPTCfgThetaLi : PotentialTemperatureCfg :=
  ⟨exParams, "theta_li", ThermoModel.water exWaterFns, false, true,
    some exCloudFns, some exMicroFns⟩

/-- Claim C3: in `PotentialTemperature.source_fn` with water thermodynamics,
subsidence enabled and radiation disabled, the subsidence term is added iff
the scalar name is `theta_li`: for `theta` the source is the zero field even
though the flag is enabled; for `theta_li` it is the subsidence term. -/
theorem c3_subsidence_only_theta_li (w : WaterFns)
    (cfg : PotentialTemperatureCfg) (subs : SubsidenceFns) (phi : Fld)
    (states : States) (addl : AddlStates) (g : Fin 3)
    (hwt : cfg.thermo = ThermoModel.water w)
    (hg : cfg.params.gDim = some g)
    (hrad : cfg.includeRadiation = false)
    (hsub : cfg.includeSubsidence = true) :
    (cfg.scalarName = "theta" →
      PotentialTemperature.sourceFn cfg subs phi states addl =
        Fld.zerosLike phi) ∧
    (cfg.scalarName = "theta_li" →
      PotentialTemperature.sourceFn cfg subs phi states addl =
        Fld.zipW (· + ·) (Fld.zerosLike phi)
          (subs.sourceBySubsidence states.rho
            ((PotentialTemperature.getThermodynamicVariables w cfg.scalarName
              phi states addl).zz) (cfg.params.h g) phi g)) := by
  constructor
  · intro hname
    unfold PotentialTemperature.sourceFn
    simp only [hwt, hrad, hsub, hg, hname]
    rw [show decide ("theta" = "theta_li") = false from rfl]
  · intro hname
    unfold PotentialTemperature.sourceFn
    simp only [hwt, hrad, hsub, hg, hname]
    rw [show decide True = true from rfl]

/-- Claim C3, witness: at the fixture inputs, the `theta` source is the zero
field while the `theta_li` source carries the subsidence term. -/
theorem c3_witness :
    exPTCfgTheta.includeSubsidence = true ∧
    exPTCfgTheta.scalarName = "theta" ∧
    PotentialTemperature.sourceFn exPTCfgTheta exSubsFns fld0 exStatesF
      exAddlF = Fld.zerosLike fld0 ∧
    PotentialTemperature.sourceFn exPTCfgThetaLi exSubsFns fld0 exStatesF
      exAddlF =
      Fld.zipW (· + ·) (Fld.zerosLike fld0)
        (exSubsFns.sourceBySubsidence exStatesF.rho
          ((PotentialTemperature.getThermodynamicVariables exWaterFns
            exPTCfgThetaLi.scalarName fld0 exStatesF exAddlF).zz)
          (exPTCfgThetaLi.params.h 2) fld0 2) :=
  ⟨rfl, rfl,
   (c3_subsidence_only_theta_li exWaterFns exPTCfgTheta exSubsFns fld0
     exStatesF exAddlF 2 rfl rfl rfl rfl).1 rfl,
   (c3_subsidence_only_theta_li exWaterFns exPTCfgThetaLi exSubsFns fld0
     exStatesF exAddlF 2 rfl rfl rfl rfl).2 rfl⟩

/-- Fixture: `TotalEnergy` configuration with all optional physics off. -/
def exTECfg : TotalEnergyCfg :=
  ⟨exParams, "e_t", ThermoModel.water exWaterFns, false, false, false,
    exCloudFns, exMicroFns⟩

/-- Claim C8: with all optional physics terms disabled — and, for total energy,
zero velocity fields — both specializations' `source_fn` return the zero
field with exactly `phi`'s shape (the embedding is pure, so the input maps
are returned untouched by construction). -/
theorem c8_zero_inputs_zero_source (subs : SubsidenceFns) (phi : Fld) :
    (∀ (cfg : PotentialTemperatureCfg) (states : States) (addl : AddlStates),
      cfg.includeRadiation = false → cfg.includeSubsidence = false →
      PotentialTemperature.sourceFn cfg subs phi states addl =
        ⟨phi.nx, phi.ny, phi.nz, fun _ _ _ => 0⟩) ∧
    (∀ (cfg : TotalEnergyCfg) (w : WaterFns) (states : States)
        (addl : AddlStates),
      cfg.thermo = ThermoModel.water w →
      cfg.includeRadiation = false → cfg.includeSubsidence = false →
      cfg.includePrecipitation = false →
      (∀ i j k, states.u.val i j k = 0) →
      (∀ i j k, states.v.val i j k = 0) →
      (∀ i j k, states.w.val i j k = 0) →
      states.u.nx = phi.nx → states.u.ny = phi.ny → states.u.nz = phi.nz →
      TotalEnergy.sourceFn cfg subs phi states addl =
        Except.ok ⟨phi.nx, phi.ny, phi.nz, fun _ _ _ => 0⟩) := by
  constructor
  · intro cfg states addl hrad hsub
    unfold PotentialTemperature.sourceFn
    cases hth : cfg.thermo with
    | ideal => rfl
    | water w' =>
        simp only [hrad, hsub]
        rfl
  · intro cfg w states addl hwt hrad hsub hprec hu hv hw0 hnx hny hnz
    unfold TotalEnergy.sourceFn
    simp only [hwt, hrad, hsub, hprec]
    refine congrArg Except.ok ?_
    apply Fld.ext
    · exact hnx
    · exact hny
    · exact hnz
    · funext i j k
      simp [divergence, Fld.centralDiff, Fld.zip6W, TotalEnergy.uDotTau,
        hu, hv, hw0]

/-- Claim C8, witness: at the all-zero fixture both sources are the zero
1×1×1 field. -/
theorem c8_witness :
    exPTCfgTheta.includeRadiation = false ∧ exTECfg.includeSubsidence = false
    ∧ (∀ i j k, exStatesF.u.val i j k = 0) ∧
    PotentialTemperature.sourceFn
      { exPTCfgTheta with includeSubsidence := false } exSubsFns fld0
      exStatesF exAddlF = ⟨fld0.nx, fld0.ny, fld0.nz, fun _ _ _ => 0⟩ ∧
    TotalEnergy.sourceFn exTECfg exSubsFns fld0 exStatesF exAddlF =
      Except.ok ⟨fld0.nx, fld0.ny, fld0.nz, fun _ _ _ => 0⟩ :=
  ⟨rfl, rfl, fun _ _ _ => rfl,
   (c8_zero_inputs_zero_source exSubsFns fld0).1
     { exPTCfgTheta with includeSubsidence := false } exStatesF exAddlF rfl
     rfl,
   (c8_zero_inputs_zero_source exSubsFns fld0).2 exTECfg exWaterFns exStatesF
     exAddlF rfl rfl rfl rfl (fun _ _ _ => rfl) (fun _ _ _ => rfl)
     (fun _ _ _ => rfl) rfl rfl rfl⟩

/-- Fixture: `TotalEnergy` configuration with radiation enabled and an
identically-zero radiative-flux Cloud collaborator. -/
def exTECfgRadZero : TotalEnergyCfg :=
  ⟨exParams, "e_t", ThermoModel.water exWaterFns, true, false, false,
    exZeroCloudFns, exMicroFns⟩

/-- Claim C4: when the Cloud collaborator's radiative flux field is identically
zero, the radiation-enabled total-energy source coincides with the source of
the same configuration with radiation disabled (additive decomposition
property; the correction touches only the gravity-axis component). -/
theorem c4_radiation_zero_decomposition (cfg : TotalEnergyCfg)
    (w : WaterFns) (subs : SubsidenceFns) (phi : Fld) (states : States)
    (addl : AddlStates)
    (hwt : cfg.thermo = ThermoModel.water w)
    (hrad : cfg.includeRadiation = true)
    (hfr : ∀ ql rt zz hg g halos i j k,
      (cfg.cloudFns.sourceByRadiation ql rt zz hg g halos).val i j k = 0) :
    TotalEnergy.sourceFn cfg subs phi states addl =
      TotalEnergy.sourceFn { cfg with includeRadiation := false } subs phi
        states addl := by
  have key : ∀ (T : Fin 3 → Fld) (g : Fin 3) (rho F : Fld),
      (∀ i j k, F.val i j k = 0) →
      Function.update T g
        (Fld.zip3W (fun div_term_i rho_i f_r_i => div_term_i -
          rho_i * f_r_i) (T g) rho F) = T := by
    intro T g rho F hF
    have h1 : Fld.zip3W (fun div_term_i rho_i f_r_i => div_term_i -
        rho_i * f_r_i) (T g) rho F = T g := by
      apply Fld.ext
      · rfl
      · rfl
      · rfl
      · funext i j k
        simp [Fld.zip3W, hF]
    rw [h1, Function.update_eq_self]
  unfold TotalEnergy.sourceFn
  cases hg : cfg.params.gDim with
  | none =>
      cases hp : cfg.includePrecipitation <;>
        simp only [hwt, hrad, hg, hp, Bool.true_or, Bool.false_or] <;>
        rfl
  | some g =>
      cases hp : cfg.includePrecipitation <;>
        simp only [hwt, hrad, hg, hp, Bool.true_or, Bool.false_or] <;>
        rw [key _ g states.rho _
          (fun i j k => hfr _ _ _ _ _ _ i j k)] <;>
        rfl

/-- Claim C4, witness: with the identically-zero Cloud collaborator, the
radiation-enabled and radiation-disabled fixture sources coincide. -/
theorem c4_witness :
    exTECfgRadZero.includeRadiation = true ∧
    (∀ (ql rt zz : Fld) (hg : ℚ) (g : Fin 3) (halos : List ℕ) (i j k : ℤ),
      (exTECfgRadZero.cloudFns.sourceByRadiation ql rt zz hg g halos).val
        i j k = 0) ∧
    TotalEnergy.sourceFn exTECfgRadZero exSubsFns fld0 exStatesF exAddlF =
      TotalEnergy.sourceFn { exTECfgRadZero with includeRadiation := false }
        exSubsFns fld0 exStatesF exAddlF :=
  ⟨rfl, fun _ _ _ _ _ _ _ _ _ => rfl,
   c4_radiation_zero_decomposition exTECfgRadZero exWaterFns exSubsFns fld0
     exStatesF exAddlF rfl rfl (fun _ _ _ _ _ _ _ _ _ => rfl)⟩

/-- Linearity of the central-difference divergence in the gravity-axis
component: correcting that component by `−ρ·f_r` before the divergence adds
exactly the unscaled gravity-axis divergence of `−ρ·f_r`. -/
theorem divergence_update_radiation (T : Fin 3 → Fld) (g : Fin 3)
    (rho F : Fld) (hh : Fin 3 → ℚ) :
    divergence (Function.update T g
      (Fld.zip3W (fun div_term_i rho_i f_r_i => div_term_i - rho_i * f_r_i)
        (T g) rho F)) hh =
      Fld.zipW (· + ·) (divergence T hh)
        (((Fld.zipW (fun rho f => -(rho * f)) rho F).centralDiff g).map1
          (fun x => x / (2 * hh g))) := by
  fin_cases g <;>
  · apply Fld.ext
    · simp [divergence, Fld.zipW, Fld.zip3W]
    · simp [divergence, Fld.zipW, Fld.zip3W]
    · simp [divergence, Fld.zipW, Fld.zip3W]
    · funext i j k
      simp [divergence, Fld.zipW, Fld.zip3W, Fld.map1, Fld.centralDiff]
      ring

/-- The radiation contribution to the total-energy source as the spec
describes it: the gravity-axis central-difference divergence of `−ρ·f_r`,
with no `cp_m⁻¹·exner⁻¹` scaling. -/
def teRadiationDivTerm (cfg : TotalEnergyCfg) (w : WaterFns) (phi : Fld)
    (states : States) (addl : AddlStates) (g : Fin 3) : Fld :=
  let ts := TotalEnergy.getThermodynamicVariables w phi states addl
  let q_l := (w.equilibriumPhasePartition ts.T states.rho_thermal ts.q_t).1
  let halos := [cfg.params.haloWidth, cfg.params.haloWidth,
    cfg.params.haloWidth]
  let f_r := cfg.cloudFns.sourceByRadiation q_l states.rho_thermal ts.zz
    (cfg.params.h g) g halos
  ((Fld.zipW (fun rho f => -(rho * f)) states.rho f_r).centralDiff g).map1
    (fun x => x / (2 * cfg.params.h g))

/-- The radiation source of the potential-temperature equation as the spec
describes it: the gravity-axis central-difference divergence of `−ρ·f_r`
taken first, then multiplied pointwise by `cp_m⁻¹·exner⁻¹`. -/
def ptRadiationSource (cfg : PotentialTemperatureCfg) (w : WaterFns)
    (cl : CloudFns) (phi : Fld) (states : States) (addl : AddlStates)
    (g : Fin 3) : Fld :=
  let ts := PotentialTemperature.getThermodynamicVariables w cfg.scalarName
    phi states addl
  let halos := [cfg.params.haloWidth, cfg.params.haloWidth,
    cfg.params.haloWidth]
  let f_r := cl.sourceByRadiation ts.q_l states.rho_thermal ts.zz
    (cfg.params.h g) g halos
  let divTerm := ((Fld.zipW (fun rho f_r => -rho * f_r) states.rho
    f_r).centralDiff g).map1 (fun f => f / (2 * cfg.params.h g))
  let cp_m_exner_inv := Fld.zipW (· * ·)
    ((w.cp_m states.q_t ts.q_l ts.q_i).map1 (fun c => c⁻¹))
    (w.exnerInverse states.rho_thermal states.q_t ts.T ts.zz)
  Fld.zipW (· * ·) cp_m_exner_inv divTerm

/-- Claim C7: the total-energy radiation correction enters the gravity-axis
component before the divergence and without `cp_m⁻¹·exner⁻¹` scaling (the
radiation-on source equals the radiation-off source plus exactly the
unscaled gravity-axis divergence of `−ρ·f_r`), whereas the
potential-temperature radiation source is the gravity-axis divergence of
`−ρ·f_r` taken first and then multiplied pointwise by `cp_m⁻¹·exner⁻¹`. -/
theorem c7_radiation_correction_asymmetry (cfgE : TotalEnergyCfg)
    (w : WaterFns) (subs : SubsidenceFns) (phi : Fld) (states : States)
    (addl : AddlStates) (g : Fin 3) (cfgP : PotentialTemperatureCfg)
    (wP : WaterFns) (cl : CloudFns) (phiP : Fld) (statesP : States)
    (addlP : AddlStates) (gP : Fin 3)
    (hwtE : cfgE.thermo = ThermoModel.water w)
    (hradE : cfgE.includeRadiation = true)
    (hgE : cfgE.params.gDim = some g)
    (hsubE : cfgE.includeSubsidence = false)
    (hprecE : cfgE.includePrecipitation = false)
    (hwtP : cfgP.thermo = ThermoModel.water wP)
    (hradP : cfgP.includeRadiation = true)
    (hgP : cfgP.params.gDim = some gP)
    (hclP : cfgP.cloudFns = some cl)
    (hsubP : cfgP.includeSubsidence = false) :
    TotalEnergy.sourceFn cfgE subs phi states addl =
      (TotalEnergy.sourceFn { cfgE with includeRadiation := false } subs phi
        states addl).map
        (fun s0 => Fld.zipW (· + ·) s0
          (teRadiationDivTerm cfgE w phi states addl g)) ∧
    PotentialTemperature.sourceFn cfgP subs phiP statesP addlP =
      ptRadiationSource cfgP wP cl phiP statesP addlP gP := by
  constructor
  · unfold TotalEnergy.sourceFn
    simp only [hwtE, hradE, hgE, hsubE, hprecE, Bool.true_or, Bool.false_or,
      Except.map]
    rw [divergence_update_radiation]
    rfl
  · unfold PotentialTemperature.sourceFn
    simp only [hwtP, hradP, hgP, hclP, hsubP]
    rfl

/-- Fixture: `TotalEnergy` configuration with radiation enabled. -/
def exTECfgRad : TotalEnergyCfg :=
  ⟨exParams, "e_t", ThermoModel.water exWaterFns, true, false, false,
    exCloudFns, exMicroFns⟩

/-- Fixture: `PotentialTemperature` configuration with radiation enabled. -/
def exPTCfgRad : PotentialTemperatureCfg :=
  ⟨exParams, "theta_li", ThermoModel.water exWaterFns, true, false,
    some exCloudFns, some exMicroFns⟩

/-- Claim C7, witness: the decomposition and the scaled-after-divergence form
hold at the radiation-enabled fixtures. -/
theorem c7_witness :
    exTECfgRad.includeRadiation = true ∧
    exPTCfgRad.includeRadiation = true ∧
    (TotalEnergy.sourceFn exTECfgRad exSubsFns fld0 exStatesF exAddlF =
      (TotalEnergy.sourceFn { exTECfgRad with includeRadiation := false }
        exSubsFns fld0 exStatesF exAddlF).map
        (fun s0 => Fld.zipW (· + ·) s0
          (teRadiationDivTerm exTECfgRad exWaterFns fld0 exStatesF exAddlF 2))
      ∧
     PotentialTemperature.sourceFn exPTCfgRad exSubsFns fld0 exStatesF
       exAddlF =
       ptRadiationSource exPTCfgRad exWaterFns exCloudFns fld0 exStatesF
         exAddlF 2) :=
  ⟨rfl, rfl,
   c7_radiation_correction_asymmetry exTECfgRad exWaterFns exSubsFns fld0
     exStatesF exAddlF 2 exPTCfgRad exWaterFns exCloudFns fld0 exStatesF
     exAddlF 2 rfl rfl rfl rfl rfl rfl rfl rfl rfl rfl⟩

end SwirlLM
